import Mathlib

/-!
Shallow embedding of the `fastAPI-backend` repository: the centralized
logging pipeline of `src/logging_module.py` (filters, formatters, handler
configuration, the `init` function mutating the module-level
`LOGGING_CONFIG`, and the queue-listener dispatch of records to sinks),
and the HTTP GET endpoints of `src/routers/get_router.py` backed by the
`Animal` object of `src/services/first_service.py`.
-/

namespace FastAPIBackend

/-! ## Severity levels (numeric values of the Python `logging` module) -/

namespace logging

def NOTSET : Nat := 0

def DEBUG : Nat := 10

def INFO : Nat := 20

def WARNING : Nat := 30

def ERROR : Nat := 40

def CRITICAL : Nat := 50

/-- `logging.getLevelName` restricted to the numeric levels used here;
falls back to `"Level n"` as CPython does. -/
def getLevelName (n : Nat) : String :=
  if n = 10 then "DEBUG"
  else if n = 20 then "INFO"
  else if n = 30 then "WARNING"
  else if n = 40 then "ERROR"
  else if n = 50 then "CRITICAL"
  else "Level " ++ toString n

end logging

/-! ## Log records -/

/-- A log record as created by the Python `logging` module: severity,
logger name, message and source location.  `levelname` is derived from
`levelno` at creation time (`makeRecord` below). -/
structure LogRecord where
  name : String
  levelno : Nat
  levelname : String
  msg : String
  pathname : String
  lineno : Nat
  funcName : String
  asctime : String
deriving DecidableEq

/-- Record creation as done by `Logger.makeRecord`: `levelname` is
`getLevelName levelno`. -/
def makeRecord (name : String) (levelno : Nat) (msg : String)
    (pathname : String) (lineno : Nat) (funcName : String)
    (asctime : String) : LogRecord :=
  ⟨name, levelno, logging.getLevelName levelno, msg, pathname, lineno, funcName, asctime⟩

/-! ## `InfoFilter` (src/logging_module.py lines 114-116) -/

/-- `InfoFilter.filter`: accepts a record exactly when its level is INFO. -/
def InfoFilter.filter (record : LogRecord) : Bool :=
  record.levelno == logging.INFO

/-- Filters are referenced by name in the configuration; `info_filter` is
the only one (`LOGGING_CONFIG['filters']`). An unknown name imposes no
restriction. -/
def applyFilter (filterName : String) (r : LogRecord) : Bool :=
  if filterName = "info_filter" then InfoFilter.filter r else true

/-! ## JSON formatters (`LOGGING_CONFIG['formatters']`) -/

/-- Format string of the `json` formatter. -/
def json_format : String :=
  "%(asctime)s %(name)-12s %(levelname)-4s %(message)s"

/-- Format string of the `debug_json` formatter. -/
def debug_json_format : String :=
  "%(asctime)s %(name)-12s %(levelname)-4s %(pathname)s %(lineno)d %(funcName)s %(message)s"

/-- Scanner extracting the `%(attr)` attribute names of a format string:
`st = 0` outside a conversion, `st = 1` right after `%`, `st = 2` inside
the parenthesised name with `acc` holding its characters in reverse. -/
def extractFieldsAux : List Char → Nat → List Char → List String
  | [], _, _ => []
  | c :: rest, 0, acc =>
      if c = '%' then extractFieldsAux rest 1 acc
      else extractFieldsAux rest 0 acc
  | c :: rest, 1, acc =>
      if c = '(' then extractFieldsAux rest 2 []
      else if c = '%' then extractFieldsAux rest 1 acc
      else extractFieldsAux rest 0 acc
  | c :: rest, _ + 2, acc =>
      if c = ')' then String.mk acc.reverse :: extractFieldsAux rest 0 []
      else extractFieldsAux rest 2 (c :: acc)

/-- The `%(attr)` attribute names occurring in a format string, in
order — this is how `pythonjsonlogger.JsonFormatter` determines the
fields of the emitted JSON object. -/
def extractFields (l : List Char) : List String :=
  extractFieldsAux l 0 []

/-- The JSON field names produced by a `JsonFormatter` built from format
string `fmt`. -/
def jsonFields (fmt : String) : List String :=
  extractFields fmt.toList

/-- The value a record supplies for a format attribute. -/
def recordAttr (r : LogRecord) (attr : String) : String :=
  if attr = "asctime" then r.asctime
  else if attr = "name" then r.name
  else if attr = "levelname" then r.levelname
  else if attr = "pathname" then r.pathname
  else if attr = "lineno" then toString r.lineno
  else if attr = "funcName" then r.funcName
  else if attr = "message" then r.msg
  else ""

/-- Formatting a record with a `JsonFormatter`: one JSON object whose
fields are the attributes named in the format string, in order. -/
def formatRecord (fmt : String) (r : LogRecord) : List (String × String) :=
  (jsonFields fmt).map (fun f => (f, recordAttr r f))

/-! ## File handler configurations (`LOGGING_CONFIG['handlers']`) -/

/-- A file handler as configured in `LOGGING_CONFIG`: minimum level,
filter names, formatter format string, target file. -/
structure FileHandlerCfg where
  level : Nat
  filters : List String
  formatter : String
  filename : String
deriving DecidableEq

/-- `app_handler`: INFO threshold, `info_filter`, compact `json`
formatter, writes `logs/app.log`. -/
def app_handler : FileHandlerCfg :=
  ⟨logging.INFO, ["info_filter"], json_format, "logs/app.log"⟩

/-- `debug_handler`: DEBUG threshold, no filter, `debug_json` formatter,
writes `logs/debug.log`. -/
def debug_handler : FileHandlerCfg :=
  ⟨logging.DEBUG, [], debug_json_format, "logs/debug.log"⟩

/-- `error_handler`: WARNING threshold, no filter, `debug_json`
formatter, writes `logs/errors.log`. -/
def error_handler : FileHandlerCfg :=
  ⟨logging.WARNING, [], debug_json_format, "logs/errors.log"⟩

/-- Resolve a `cfg://` handler reference from the `queue_handler`
downstream list to its configuration. -/
def resolveHandler (n : String) : Option FileHandlerCfg :=
  if n = "cfg://handlers.app_handler" then some app_handler
  else if n = "cfg://handlers.debug_handler" then some debug_handler
  else if n = "cfg://handlers.error_handler" then some error_handler
  else none

/-- A handler accepts a record when the record's level reaches the
handler's threshold (checked by the listener since
`respect_handler_level=True`) and all of the handler's filters pass
(checked in `Handler.handle`). -/
def handlerAccepts (h : FileHandlerCfg) (r : LogRecord) : Bool :=
  decide (h.level ≤ r.levelno) && h.filters.all (fun f => applyFilter f r)

/-! ## The mutable part of `LOGGING_CONFIG` and `init` -/

/-- The process-wide configuration state mutated by `init`: the stream
handler's level, the root logger's level, the `queue_handler` downstream
handler references, the root logger's handler names, and the two flags. -/
structure ConfigState where
  stream_level : Nat
  root_level : Nat
  queue_handlers : List String
  root_handlers : List String
  root_propagate : Bool
  disable_existing_loggers : Bool
deriving DecidableEq

/-- `LOGGING_CONFIG` as written at module level (lines 166-229). -/
def initialConfig : ConfigState :=
  { stream_level := logging.INFO
    root_level := logging.INFO
    queue_handlers := ["cfg://handlers.app_handler", "cfg://handlers.error_handler"]
    root_handlers := ["queue_handler"]
    root_propagate := false
    disable_existing_loggers := true }

/-- `init(app_name, level, disable_existing_loggers, propagate, console)`
(src/logging_module.py lines 233-287) as a transformer of the
configuration state.  Mirrors the source statement by statement: set the
stream handler level and root level to `level`; append the debug handler
reference when `level == DEBUG` and it is not already present; append
`'stream'` to the root logger's handlers when `console == True` and it is
not already present; set `propagate` and `disable_existing_loggers`.
`app_name` is never read in the body. -/
def init (app_name : String) (level : Nat) (disable_existing_loggers : Bool)
    (propagate : Bool) (console : Bool) (s : ConfigState) : ConfigState :=
  let s1 := { s with stream_level := level, root_level := level }
  let s2 :=
    if level == logging.DEBUG &&
        !(s1.queue_handlers.contains "cfg://handlers.debug_handler") then
      { s1 with queue_handlers := s1.queue_handlers ++ ["cfg://handlers.debug_handler"] }
    else s1
  let s3 :=
    if console && !(s2.root_handlers.contains "stream") then
      { s2 with root_handlers := s2.root_handlers ++ ["stream"] }
    else s2
  { s3 with root_propagate := propagate,
            disable_existing_loggers := disable_existing_loggers }

/-! ## Record dispatch: root logger, queue listener, sinks -/

/-- One sink write: the sink name (`"console"` or a log file path), the
formatted JSON fields, and whether the write is performed by the queue's
listener thread (`viaQueue = true`) or directly by the emitting
(producer) thread (`viaQueue = false`). -/
structure Output where
  sink : String
  fields : List (String × String)
  viaQueue : Bool
deriving DecidableEq, Repr

/-- The stream handler (`LOGGING_CONFIG['handlers']['stream']`): a
synchronous `logging.StreamHandler` on stdout with the `debug_json`
formatter; it writes on the thread of the caller that emitted the
record. -/
def streamOutput (s : ConfigState) (r : LogRecord) : List Output :=
  if s.stream_level ≤ r.levelno then
    [⟨"console", formatRecord debug_json_format r, false⟩]
  else []

/-- The `QueueListener` dispatch: the listener thread hands the dequeued
record to each downstream handler whose threshold
(`respect_handler_level=True`) and filters accept it. -/
def listenerDispatch (s : ConfigState) (r : LogRecord) : List Output :=
  s.queue_handlers.filterMap (fun n =>
    (resolveHandler n).bind (fun h =>
      if handlerAccepts h r then
        some ⟨h.filename, formatRecord h.formatter r, true⟩
      else none))

/-- `Logger.callHandlers` on the root logger: each attached handler gets
the record (the `queue_handler` has no configured level, so its NOTSET
threshold never rejects); `queue_handler` enqueues it for the listener,
`stream` writes synchronously subject to its own level. -/
def rootDispatch (s : ConfigState) (r : LogRecord) : List Output :=
  s.root_handlers.flatMap (fun n =>
    if n = "queue_handler" then listenerDispatch s r
    else if n = "stream" then streamOutput s r
    else [])

/-- All sink writes produced for one record emitted through the
configured pipeline: the record is processed only when its level reaches
the root logger's level. -/
def emit (s : ConfigState) (r : LogRecord) : List Output :=
  if s.root_level ≤ r.levelno then rootDispatch s r else []

/-! ## `QueueListenerHandler` (src/logging_module.py lines 143-153) -/

/-- A bounded queue object, identified by its allocation id. -/
structure QueueObj where
  id : Nat
  capacity : Nat
deriving DecidableEq

/-- The default argument `queue=Queue(1000)` of
`QueueListenerHandler.__init__` is evaluated exactly once, when the
`def` statement executes at module import — Python default-argument
semantics — so all default-constructed instances see this single
object. -/
def defaultQueue : QueueObj :=
  ⟨0, 1000⟩

/-- The state of a constructed `QueueListenerHandler`: the queue it
enqueues into and drains from, its downstream handler references, and
the `respect_handler_level` flag passed to its `QueueListener`. -/
structure QueueListenerHandler where
  queue : QueueObj
  handlers : List String
  respect_handler_level : Bool
deriving DecidableEq

/-- `QueueListenerHandler.__init__`: `none` for the queue argument means
the argument was omitted at the call site, in which case the shared
`defaultQueue` is used; an explicit queue is allocated fresh by the
caller. -/
def mkQueueListenerHandler (handlers : List String)
    (respect_handler_level : Bool) (queue : Option QueueObj) :
    QueueListenerHandler :=
  ⟨queue.getD defaultQueue, handlers, respect_handler_level⟩

/-! ## HTTP endpoints (src/routers/get_router.py, src/services/first_service.py) -/

/-- JSON values as returned by the FastAPI handlers. -/
inductive JsonVal where
  | str : String → JsonVal
  | num : Int → JsonVal
  | null : JsonVal
  | obj : List (String × JsonVal) → JsonVal

/-- `Animal.__init__` stores `name` and `species`. -/
structure Animal where
  name : String
  species : String
deriving DecidableEq

/-- `Animal.make_sound`. -/
def Animal.make_sound (_ : Animal) : String :=
  "Roar!"

/-- `AnimalService = Animal("Simba", "Lion")` (module-level in
get_router.py). -/
def AnimalService : Animal :=
  ⟨"Simba", "Lion"⟩

/-- `GET /` handler (the first `read_root`). -/
def read_root : JsonVal :=
  .obj [("message", .str "Hello, World!")]

/-- `GET /Animal` handler (the second function named `read_root` in the
source; renamed here because Lean forbids the duplicate name). -/
def read_root_animal : JsonVal :=
  .obj [("message", .obj [("name", .str AnimalService.name),
                          ("Species", .str AnimalService.species)])]

/-- `GET /items/{item_id}` handler `read_item(item_id: int, q: str = None)`. -/
def read_item (item_id : Int) (q : Option String) : JsonVal :=
  .obj [("item_id", .num item_id),
        ("q", match q with
              | some s => .str s
              | none => .null)]

/-! ## Concrete sample records and configurations -/

/-- The record created by `logger.debug("hello first error")` in
`src/test_Logging.py` line 18. -/
def testDebugRecord : LogRecord :=
  makeRecord "__main__" logging.DEBUG "hello first error" "test_Logging.py" 18 "<module>" "t0"

/-- A sample INFO record. -/
def infoRecord : LogRecord :=
  makeRecord "root" logging.INFO "hello info" "app.py" 1 "main" "t1"

/-- A sample WARNING record. -/
def warnRecord : LogRecord :=
  makeRecord "root" logging.WARNING "hello warning" "app.py" 2 "main" "t2"

/-- The configuration after `init("test", level=logging.DEBUG)` with the
default flags, as run by `src/test_Logging.py`. -/
def testConfig : ConfigState :=
  init "test" logging.DEBUG false false true initialConfig

/-- The sink writes for the `test_Logging.py` record under `testConfig`. -/
def testOutputs : List Output :=
  emit testConfig testDebugRecord

/-- The configuration after an `init` call at INFO with default flags. -/
def defaultInfoConfig : ConfigState :=
  init "app" logging.INFO false false true initialConfig

/-! ## Helper lemmas -/

/-- `app_handler` accepts a record exactly when its level is INFO: the
INFO threshold passes levels ≥ INFO and `info_filter` then keeps only
level = INFO. -/
theorem handlerAccepts_app_iff (r : LogRecord) :
    handlerAccepts app_handler r = true ↔ r.levelno = logging.INFO := by
  simp [handlerAccepts, app_handler, applyFilter, InfoFilter.filter, logging.INFO]
  omega

/-- `error_handler` accepts a record exactly when its level is at least
WARNING. -/
theorem handlerAccepts_error_iff (r : LogRecord) :
    handlerAccepts error_handler r = true ↔ logging.WARNING ≤ r.levelno := by
  simp [handlerAccepts, error_handler, logging.WARNING]

/-- `debug_handler` accepts a record exactly when its level is at least
DEBUG. -/
theorem handlerAccepts_debug_iff (r : LogRecord) :
    handlerAccepts debug_handler r = true ↔ logging.DEBUG ≤ r.levelno := by
  simp [handlerAccepts, debug_handler, logging.DEBUG]

/-- The only resolvable handler references are the three file handlers. -/
theorem resolveHandler_eq_some (n : String) (hc : FileHandlerCfg)
    (h : resolveHandler n = some hc) :
    (n = "cfg://handlers.app_handler" ∧ hc = app_handler) ∨
    (n = "cfg://handlers.debug_handler" ∧ hc = debug_handler) ∨
    (n = "cfg://handlers.error_handler" ∧ hc = error_handler) := by
  unfold resolveHandler at h
  split_ifs at h with h1 h2 h3 <;> simp_all

/-- Membership in the listener's dispatch output, unfolded. -/
theorem mem_listenerDispatch (s : ConfigState) (r : LogRecord) (o : Output) :
    o ∈ listenerDispatch s r ↔
      ∃ n ∈ s.queue_handlers, ∃ hc, resolveHandler n = some hc ∧
        handlerAccepts hc r = true ∧
        o = ⟨hc.filename, formatRecord hc.formatter r, true⟩ := by
  simp only [listenerDispatch, List.mem_filterMap, Option.bind_eq_some]
  constructor
  · rintro ⟨n, hn, hc, hres, hif⟩
    split_ifs at hif with ha
    exact ⟨n, hn, hc, hres, ha, (Option.some_inj.mp hif).symm⟩
  · rintro ⟨n, hn, hc, hres, ha, rfl⟩
    exact ⟨n, hn, hc, hres, by simp [ha]⟩

/-- Every write produced by `emit` is one of the four sinks with its
configured formatter, the console one synchronous and the file ones via
the listener. -/
theorem emit_cases (s : ConfigState) (r : LogRecord) (o : Output)
    (ho : o ∈ emit s r) :
    o = ⟨"console", formatRecord debug_json_format r, false⟩ ∨
    o = ⟨"logs/app.log", formatRecord json_format r, true⟩ ∨
    o = ⟨"logs/debug.log", formatRecord debug_json_format r, true⟩ ∨
    o = ⟨"logs/errors.log", formatRecord debug_json_format r, true⟩ := by
  unfold emit at ho
  split_ifs at ho with hroot
  · unfold rootDispatch at ho
    rw [List.mem_flatMap] at ho
    obtain ⟨n, hn, hmem⟩ := ho
    split_ifs at hmem with hq hs
    · rw [mem_listenerDispatch] at hmem
      obtain ⟨m, hm, hc, hres, hacc, rfl⟩ := hmem
      rcases resolveHandler_eq_some m hc hres with ⟨_, rfl⟩ | ⟨_, rfl⟩ | ⟨_, rfl⟩
      · exact Or.inr (Or.inl rfl)
      · exact Or.inr (Or.inr (Or.inl rfl))
      · exact Or.inr (Or.inr (Or.inr rfl))
    · unfold streamOutput at hmem
      split_ifs at hmem with hl
      · rw [List.mem_singleton] at hmem
        exact Or.inl hmem
      · simp at hmem
    · simp at hmem
  · simp at ho

/-- The field names of a formatted record are the format string's
attribute names. -/
theorem formatRecord_map_fst (fmt : String) (r : LogRecord) :
    (formatRecord fmt r).map Prod.fst = jsonFields fmt := by
  simp [formatRecord, List.map_map, Function.comp_def]

/-! ## Claim theorems -/

/-- C1: for every record dispatched by the configured pipeline's
listener, routing between the two file handlers is disjoint and
exhaustive by severity — a record whose level is exactly INFO is written
to `app.log` and not to `errors.log`, and a record at WARNING, ERROR or
CRITICAL is written to `errors.log` and not to `app.log`. -/
theorem C1_severity_routing (s : ConfigState) (r : LogRecord)
    (happ : "cfg://handlers.app_handler" ∈ s.queue_handlers)
    (herr : "cfg://handlers.error_handler" ∈ s.queue_handlers) :
    (r.levelno = logging.INFO →
      (∃ o ∈ listenerDispatch s r, o.sink = "logs/app.log") ∧
      (∀ o ∈ listenerDispatch s r, o.sink ≠ "logs/errors.log")) ∧
    ((r.levelno = logging.WARNING ∨ r.levelno = logging.ERROR ∨
        r.levelno = logging.CRITICAL) →
      (∃ o ∈ listenerDispatch s r, o.sink = "logs/errors.log") ∧
      (∀ o ∈ listenerDispatch s r, o.sink ≠ "logs/app.log")) := by
  constructor
  · intro hlev
    constructor
    · refine ⟨⟨"logs/app.log", formatRecord json_format r, true⟩, ?_, rfl⟩
      rw [mem_listenerDispatch]
      exact ⟨_, happ, app_handler, rfl, (handlerAccepts_app_iff r).mpr hlev, rfl⟩
    · intro o ho hsink
      rw [mem_listenerDispatch] at ho
      obtain ⟨n, hn, hc, hres, hacc, rfl⟩ := ho
      rcases resolveHandler_eq_some n hc hres with ⟨_, rfl⟩ | ⟨_, rfl⟩ | ⟨_, rfl⟩
      · simp [app_handler] at hsink
      · simp [debug_handler] at hsink
      · have := (handlerAccepts_error_iff r).mp hacc
        simp [logging.WARNING, logging.INFO] at this hlev
        omega
  · intro hlev
    have hge : logging.WARNING ≤ r.levelno := by
      rcases hlev with h | h | h <;>
        simp [h, logging.WARNING, logging.ERROR, logging.CRITICAL]
    constructor
    · refine ⟨⟨"logs/errors.log", formatRecord debug_json_format r, true⟩, ?_, rfl⟩
      rw [mem_listenerDispatch]
      exact ⟨_, herr, error_handler, rfl, (handlerAccepts_error_iff r).mpr hge, rfl⟩
    · intro o ho hsink
      rw [mem_listenerDispatch] at ho
      obtain ⟨n, hn, hc, hres, hacc, rfl⟩ := ho
      rcases resolveHandler_eq_some n hc hres with ⟨_, rfl⟩ | ⟨_, rfl⟩ | ⟨_, rfl⟩
      · have := (handlerAccepts_app_iff r).mp hacc
        simp [logging.WARNING, logging.INFO] at this hge
        omega
      · simp [debug_handler] at hsink
      · simp [error_handler] at hsink

/-- Witness for C1 at the initial configuration: an INFO record reaches
`app.log` and a WARNING record never reaches `app.log`. -/
theorem C1_severity_routing_witness :
    (∃ o ∈ listenerDispatch initialConfig infoRecord, o.sink = "logs/app.log") ∧
    (∀ o ∈ listenerDispatch initialConfig warnRecord, o.sink ≠ "logs/app.log") :=
  ⟨((C1_severity_routing initialConfig infoRecord (by decide) (by decide)).1 rfl).1,
   ((C1_severity_routing initialConfig warnRecord (by decide) (by decide)).2
      (Or.inl rfl)).2⟩

/-- C2: the claim that every sink write — the console stream included —
happens downstream of the queue, the root logger dispatching only to the
queue handler, is false: after a default `init` the stream handler is
attached directly to the root logger and writes on the producer's
thread. -/
theorem C2_counterexample :
    (∃ o ∈ emit defaultInfoConfig infoRecord,
      o.viaQueue = false ∧ o.sink = "console") ∧
    defaultInfoConfig.root_handlers ≠ ["queue_handler"] := by decide

/-- C2 amended: only the file-handler writes are performed downstream of
the queue by the listener thread; a write bypasses the queue exactly
when it is the console stream write, which the root logger's directly
attached stream handler performs on the emitting thread. -/
theorem C2_amended_sink_thread (s : ConfigState) (r : LogRecord) (o : Output)
    (ho : o ∈ emit s r) : o.viaQueue = false ↔ o.sink = "console" := by
  rcases emit_cases s r o ho with rfl | rfl | rfl | rfl <;> simp

/-- Witness for C2 amended: the console write of a concrete INFO record
under the default configuration. -/
theorem C2_amended_sink_thread_witness :
    ((⟨"console", formatRecord debug_json_format infoRecord, false⟩ : Output) ∈
      emit defaultInfoConfig infoRecord) ∧
    ((false = false) ↔ (("console" : String) = "console")) :=
  ⟨by decide,
   C2_amended_sink_thread defaultInfoConfig infoRecord
     ⟨"console", formatRecord debug_json_format infoRecord, false⟩ (by decide)⟩

/-- C3: the claim that every `errors.log` line has exactly the fields
asctime, name, levelname, message is false — `error_handler` is
configured with the `debug_json` formatter, so its lines also carry
pathname, lineno and funcName: witnessed by a concrete WARNING record
under the initial configuration. -/
theorem C3_counterexample :
    ∃ o ∈ emit initialConfig warnRecord, o.sink = "logs/errors.log" ∧
      o.fields.map Prod.fst ≠ ["asctime", "name", "levelname", "message"] ∧
      "pathname" ∈ o.fields.map Prod.fst := by decide

/-- C3 amended: `app.log` lines carry exactly the fields asctime, name,
levelname, message, while `errors.log`, `debug.log` and console lines
carry exactly asctime, name, levelname, pathname, lineno, funcName,
message. -/
theorem C3_amended_field_sets (s : ConfigState) (r : LogRecord) (o : Output)
    (ho : o ∈ emit s r) :
    (o.sink = "logs/app.log" →
      o.fields.map Prod.fst = ["asctime", "name", "levelname", "message"]) ∧
    ((o.sink = "logs/errors.log" ∨ o.sink = "logs/debug.log" ∨ o.sink = "console") →
      o.fields.map Prod.fst =
        ["asctime", "name", "levelname", "pathname", "lineno", "funcName", "message"]) := by
  rcases emit_cases s r o ho with rfl | rfl | rfl | rfl
  · exact ⟨fun h => by simp at h, fun _ => (formatRecord_map_fst _ _).trans rfl⟩
  · exact ⟨fun _ => (formatRecord_map_fst _ _).trans rfl, fun h => by simp at h⟩
  · exact ⟨fun h => by simp at h, fun _ => (formatRecord_map_fst _ _).trans rfl⟩
  · exact ⟨fun h => by simp at h, fun _ => (formatRecord_map_fst _ _).trans rfl⟩

/-- Witness for C3 amended: the `errors.log` write of a concrete WARNING
record carries the seven `debug_json` fields. -/
theorem C3_amended_field_sets_witness :
    (formatRecord debug_json_format warnRecord).map Prod.fst =
      ["asctime", "name", "levelname", "pathname", "lineno", "funcName", "message"] :=
  (C3_amended_field_sets initialConfig warnRecord
      ⟨"logs/errors.log", formatRecord debug_json_format warnRecord, true⟩
      (by decide)).2 (Or.inl rfl)

/-- C4: the claim that after each `init` invocation the stream handler
is attached iff that invocation passed `console=True` is false — the
attachment survives in the module-level configuration, so a second call
with `console=False` still leaves the stream handler attached. -/
theorem C4_counterexample :
    "stream" ∈ (init "a" logging.INFO false false false
      (init "a" logging.INFO false false true initialConfig)).root_handlers := by
  decide

/-- C4 amended: after `init` returns, the stream handler is attached to
the root logger iff `console=True` was passed in that invocation or the
stream handler was already attached beforehand (attachment is monotone
and never undone); from the pristine initial configuration a single
`init` attaches it iff `console=True`. -/
theorem C4_amended_stream_attachment (a : String) (level : Nat) (d p c : Bool)
    (s : ConfigState) :
    "stream" ∈ (init a level d p c s).root_handlers ↔
      (c = true ∨ "stream" ∈ s.root_handlers) := by
  cases c
  · simp [init, apply_ite ConfigState.root_handlers]
  · by_cases hmem : "stream" ∈ s.root_handlers <;>
      simp [init, apply_ite ConfigState.root_handlers, List.contains, List.elem_iff, hmem]

/-- C5: attaching the debug file handler is idempotent — two `init`
calls at DEBUG leave exactly one `cfg://handlers.debug_handler`
reference in the queue handler's downstream list. -/
theorem C5_debug_idempotent (a1 a2 : String) (d1 d2 p1 p2 c1 c2 : Bool) :
    ((init a2 logging.DEBUG d2 p2 c2
        (init a1 logging.DEBUG d1 p1 c1 initialConfig)).queue_handlers).count
      "cfg://handlers.debug_handler" = 1 := by
  cases c1 <;> cases c2 <;> rfl

/-- C6: after `init("test", level=DEBUG)`, `logger.debug("hello first
error")` yields exactly one line in `debug.log`, carrying the message
and levelname DEBUG, and no line in `app.log` or `errors.log`. -/
theorem C6_test_scenario :
    ((testOutputs.filter (fun o => o.sink == "logs/debug.log")).length = 1) ∧
    (∀ o ∈ testOutputs, o.sink = "logs/debug.log" →
      ("message", "hello first error") ∈ o.fields ∧
      ("levelname", "DEBUG") ∈ o.fields) ∧
    (∀ o ∈ testOutputs, o.sink ≠ "logs/app.log" ∧ o.sink ≠ "logs/errors.log") := by
  decide

/-- C7: `GET /Animal` returns exactly
`{"message": {"name": "Simba", "Species": "Lion"}}`. -/
theorem C7_animal_endpoint :
    read_root_animal =
      .obj [("message", .obj [("name", .str "Simba"), ("Species", .str "Lion")])] :=
  rfl

/-- C8: `GET /items/{item_id}` echoes the integer path parameter and the
optional query string: `q` is null when absent and echoed verbatim when
supplied. -/
theorem C8_items_endpoint (item_id : Int) (q : String) :
    read_item item_id none = .obj [("item_id", .num item_id), ("q", .null)] ∧
    read_item item_id (some q) = .obj [("item_id", .num item_id), ("q", .str q)] :=
  ⟨rfl, rfl⟩

/-- C9: any two `QueueListenerHandler`s constructed without an explicit
queue argument share the single default queue of capacity 1000, created
once when the `def` statement ran. -/
theorem C9_default_queue_shared (h1 h2 : List String) (r1 r2 : Bool) :
    (mkQueueListenerHandler h1 r1 none).queue =
      (mkQueueListenerHandler h2 r2 none).queue ∧
    (mkQueueListenerHandler h1 r1 none).queue.capacity = 1000 :=
  ⟨rfl, rfl⟩

/-- C10: the configuration produced by `init` does not depend on
`app_name` — the parameter is never read in the function body. -/
theorem C10_app_name_ignored (a1 a2 : String) (level : Nat) (d p c : Bool)
    (s : ConfigState) :
    init a1 level d p c s = init a2 level d p c s :=
  rfl

end FastAPIBackend
